import Mathlib

/-
Verification of behavioural claims about the ocean-shine/quant repository.

Each section shallowly embeds one Python component into Lean:
Python Decimal/float arithmetic is modelled over the rationals, Python
strings are modelled as Lean strings or lists of characters, fallible
operations (dictionary item access, division, coroutine execution) return
Option or Except values, and stateful loops become explicit recursion over
the data they consume.  Every definition is translated from the source file
named in its doc comment; theorems at the end settle the claims.
-/

set_option autoImplicit false

namespace PyStr

/-- Does the list start with the segment `pat`?  Models Python string
equality on a prefix, used to build the substring test below. -/
def startsWithSeg : List Char → List Char → Bool
  | _, [] => true
  | [], _ :: _ => false
  | a :: as_, b :: bs => a == b && startsWithSeg as_ bs

/-- Contiguous-substring test: models the Python expression
`pat in s` on strings (`pat` occurs contiguously in `s`). -/
def hasSub (pat : List Char) : List Char → Bool
  | [] => startsWithSeg [] pat
  | a :: as_ => startsWithSeg (a :: as_) pat || hasSub pat as_

/-- Whitespace set stripped by Python `str.strip()` (the characters that
occur in the subtitle and path data handled here). -/
def isPySpace (c : Char) : Bool :=
  c == ' ' || c == '\t' || c == '\n' || c == '\r'

/-- Models Python `str.strip()`: drop whitespace from both ends. -/
def pyStrip (l : List Char) : List Char :=
  ((l.dropWhile isPySpace).reverse.dropWhile isPySpace).reverse

/-- Models the Python expression `needle in hay` on `String`s. -/
def strContains (hay needle : String) : Bool :=
  hasSub needle.toList hay.toList

end PyStr

namespace ZbitPerpUtils

/-- Modelled from the spec: the host platform's position-action enum.  The
file `zbit_perpetual_utils.py` imports it from the external platform; the
members beyond OPEN/CLOSE (here NIL, used elsewhere in the connector for
non-positional orders) are the "other combinations" the mapping defaults on. -/
inductive PositionAction where
  | OPEN
  | CLOSE
  | NIL
  deriving DecidableEq

/-- Modelled from the spec: the host platform's trade-type enum, with the
BUY/SELL members used by the mapping plus the extra RANGE member. -/
inductive TradeType where
  | BUY
  | SELL
  | RANGE
  deriving DecidableEq

/-- Embeds `map_order_side` from
`src/hummingbot/connector/derivative/zbit_perpetual/zbit_perpetual_utils.py`
(lines 81-96): a four-entry table keyed by (position action, trade type),
looked up with default "BUY_OPEN". -/
def map_order_side (trade_type : TradeType) (position_action : PositionAction) : String :=
  match position_action, trade_type with
  | PositionAction.OPEN, TradeType.BUY => "BUY_OPEN"
  | PositionAction.CLOSE, TradeType.SELL => "SELL_CLOSE"
  | PositionAction.OPEN, TradeType.SELL => "SELL_OPEN"
  | PositionAction.CLOSE, TradeType.BUY => "BUY_CLOSE"
  | _, _ => "BUY_OPEN"

/-- The four explicitly mapped (position action, trade type) keys of the
`side_map` bidict in `map_order_side`. -/
def side_map_keys : List (PositionAction × TradeType) :=
  [(PositionAction.OPEN, TradeType.BUY), (PositionAction.CLOSE, TradeType.SELL),
   (PositionAction.OPEN, TradeType.SELL), (PositionAction.CLOSE, TradeType.BUY)]

end ZbitPerpUtils

namespace ZbitPerpDerivative

/-- Python `Decimal` division: raises (here: `none`) on a zero divisor,
otherwise exact rational division. -/
def dec_div (a b : ℚ) : Option ℚ :=
  if b = 0 then none else some (a / b)

/-- Embeds the margin-ratio computation of
`ZbitPerpetualDerivative.get_account_summary`
(`src/hummingbot/connector/derivative/zbit_perpetual/zbit_perpetual_derivative.py`,
lines 1247-1252): divide `margin_balance` by `maintenance_margin` when the
latter is positive, otherwise use the sentinel 999. -/
def summary_margin_ratio (margin_balance maintenance_margin : ℚ) : Option ℚ :=
  if 0 < maintenance_margin then dec_div margin_balance maintenance_margin
  else some 999

end ZbitPerpDerivative

namespace ZbitOrderBook

/-- Embeds the per-side level loop of
`ZbitOrderBook.diff_message_from_exchange`
(`src/hummingbot/connector/exchange/zbit/zbit_order_book.py`, lines 47-61):
each raw `[price, amount]` level (already parsed by `float(...)`, modelled
as a pair of rationals) is appended to the output only when its amount is
positive. -/
def parse_levels (levels : List (ℚ × ℚ)) : List (ℚ × ℚ) :=
  levels.foldl (fun acc level => if 0 < level.2 then acc ++ [level] else acc) []

/-- The parts of a raw Zbit diff payload that feed the bid/ask loops:
`"bids" in msg` / `"asks" in msg` is modelled by the `Option`. -/
structure DiffMsg where
  bids : Option (List (ℚ × ℚ))
  asks : Option (List (ℚ × ℚ))

/-- The bid/ask lists of the translated diff message content. -/
structure DiffContent where
  bids : List (ℚ × ℚ)
  asks : List (ℚ × ℚ)

/-- Embeds `ZbitOrderBook.diff_message_from_exchange` (lines 21-73): the
bid and ask level lists of the produced message content (the trading pair
and update-id fields do not interact with level filtering). -/
def diff_message_from_exchange (msg : DiffMsg) : DiffContent where
  bids := match msg.bids with
    | some levels => parse_levels levels
    | none => []
  asks := match msg.asks with
    | some levels => parse_levels levels
    | none => []

end ZbitOrderBook

namespace Avellaneda

/-- Python float modulo for the expression `timestamp % self._time_horizon`
(both nonnegative in the strategy), modelled exactly on ℚ. -/
def pymod (x m : ℚ) : ℚ := x - m * ((Int.floor (x / m) : ℤ) : ℚ)

/-- The configuration fields of `ZbitAvellanedaMarketMaking.__init__`
(`src/scripts/zbit_avellaneda_market_making.py`, lines 34-101) that enter
the parameter update: risk aversion, time horizon and the two spread
bounds (fractions of the mid price). -/
structure AvellanedaConfig where
  risk_factor : ℚ
  time_horizon : ℚ
  min_spread : ℚ
  max_spread : ℚ
  deriving DecidableEq

/-- The quote state written by `update_parameters`. -/
structure AvellanedaQuote where
  reservation_price : ℚ
  optimal_spread : ℚ
  optimal_bid : ℚ
  optimal_ask : ℚ
  deriving DecidableEq

/-- The clamp on line 253 of `zbit_avellaneda_market_making.py`:
`max(min_spread*mid, min(max_spread*mid, spread))`. -/
def clamp_spread (cfg : AvellanedaConfig) (mid raw : ℚ) : ℚ :=
  max (cfg.min_spread * mid) (min (cfg.max_spread * mid) raw)

/-- The inventory-ratio computation of `update_parameters` (lines 229-238):
the skew against the fixed 50/50 neutral point, guarded against a zero
total balance and clamped into [-1, 1]. -/
def inventory_ratio_of (base_balance quote_balance mid_price : ℚ) : ℚ :=
  let total_balance_in_quote := base_balance * mid_price + quote_balance
  let inventory_in_quote := total_balance_in_quote * (1 / 2)
  if total_balance_in_quote = 0 then 0
  else max (min ((base_balance * mid_price - inventory_in_quote) / total_balance_in_quote) 1) (-1)

/-- The reservation price of `update_parameters` (lines 240-242):
`mid - mid * γ * volatility * inventory_ratio`. -/
def reservation_price_of (cfg : AvellanedaConfig)
    (volatility base_balance quote_balance mid_price : ℚ) : ℚ :=
  mid_price - mid_price * cfg.risk_factor * volatility
    * inventory_ratio_of base_balance quote_balance mid_price

/-- The raw (un-clamped) optimal spread of `update_parameters`
(lines 244-250), with κ fixed at 1:
`2γ·volatility/κ + (1/remaining_time)·γ·volatility²` where
`remaining_time = max(1, time_horizon - timestamp % time_horizon)`. -/
def raw_spread_of (cfg : AvellanedaConfig) (volatility timestamp : ℚ) : ℚ :=
  let remaining_time := max 1 (cfg.time_horizon - pymod timestamp cfg.time_horizon)
  let kappa : ℚ := 1
  let spread_adjustment := 2 * cfg.risk_factor * volatility / kappa
  let time_adjustment := 1 / remaining_time * (cfg.risk_factor * volatility ^ 2)
  spread_adjustment + time_adjustment

/-- Embeds `ZbitAvellanedaMarketMaking.update_parameters`
(`src/scripts/zbit_avellaneda_market_making.py`, lines 214-264), the
intermediate local variables split into the named helper definitions
above.  Decimal arithmetic is modelled exactly on ℚ; the early `return`
on a zero mid price becomes `none`. -/
def update_parameters (cfg : AvellanedaConfig)
    (volatility base_balance quote_balance mid_price timestamp : ℚ) :
    Option AvellanedaQuote :=
  if mid_price = 0 then none
  else
    let reservation_price :=
      reservation_price_of cfg volatility base_balance quote_balance mid_price
    let optimal_spread := clamp_spread cfg mid_price (raw_spread_of cfg volatility timestamp)
    let optimal_bid := reservation_price - optimal_spread / 2
    let optimal_ask := reservation_price + optimal_spread / 2
    if optimal_ask ≤ optimal_bid then
      let avg_price := (optimal_bid + optimal_ask) / 2
      let min_half_spread := cfg.min_spread * mid_price / 2
      some ⟨reservation_price, optimal_spread, avg_price - min_half_spread, avg_price + min_half_spread⟩
    else
      some ⟨reservation_price, optimal_spread, optimal_bid, optimal_ask⟩

/-- `self._volatility_window = 50` (line 119). -/
def volatility_window : Nat := 50

/-- Embeds the price-sampling block of `ZbitAvellanedaMarketMaking.tick`
(lines 190-197): append the mid price when it is positive, then pop the
oldest sample when the window exceeds 50 entries. -/
def tick_sample_step (samples : List ℚ) (mid_price : ℚ) : List ℚ :=
  if 0 < mid_price then
    let appended := samples ++ [mid_price]
    if volatility_window < appended.length then appended.drop 1 else appended
  else samples

/-- Feeding a sequence of sampled mid prices through the tick sampling
path, one sampling interval at a time. -/
def feed_mid_prices (samples : List ℚ) (mids : List ℚ) : List ℚ :=
  mids.foldl tick_sample_step samples

/-- The names bound at module level in
`src/scripts/zbit_avellaneda_market_making.py`: the imports of lines 1-18
plus the class and function defined by the module.  `asyncio` is not among
them. -/
def module_globals : List String :=
  ["logging", "math", "Decimal", "List", "Dict", "pd", "np",
   "ExchangeBase", "Clock", "TradeType", "OrderType", "LimitOrder",
   "MarketTradingPairTuple", "StrategyBase", "safe_ensure_future",
   "HangingOrdersTracker", "ZbitAvellanedaMarketMaking", "start"]

/-- The observable actions of the `filled_order_delay` coroutine body
(lines 417-426). -/
inductive StratEffect where
  | await_sleep (delay : ℚ)
  | log_info (msg : String)
  | cancel_all_orders
  | create_new_orders
  deriving DecidableEq

/-- Embeds running the coroutine `ZbitAvellanedaMarketMaking.filled_order_delay`
(lines 417-426), scheduled by `did_fill_order` (line 415).  Its first
statement `await asyncio.sleep(delay)` resolves the global name `asyncio`;
if the name is not bound in the module, Python raises NameError and none
of the later statements run.  Otherwise the coroutine sleeps and, when the
markets are ready, logs, cancels all orders and recreates them. -/
def run_filled_order_delay (globals : List String) (all_markets_ready : Bool)
    (delay : ℚ) : Except String (List StratEffect) :=
  if "asyncio" ∈ globals then
    Except.ok (StratEffect.await_sleep delay ::
      (if all_markets_ready then
        [StratEffect.log_info "Recreating orders after filled order delay",
         StratEffect.cancel_all_orders, StratEffect.create_new_orders]
      else []))
  else Except.error "NameError: name asyncio is not defined"

/-- Did the coroutine run to completion (no exception)? -/
def coroutine_completed (r : Except String (List StratEffect)) : Bool :=
  match r with
  | Except.ok _ => true
  | Except.error _ => false

end Avellaneda

namespace ZbitPerpWebUtils

/-- The JSON body of one HTTP response, reduced to the fields `api_request`
inspects: the optional integer `code` and the optional `msg` text. -/
structure RespBody where
  code : Option Int
  msg : Option String
  deriving DecidableEq

/-- What one executed HTTP attempt inside `api_request` can yield: a
response with a status and parsed JSON body, a body that fails to parse as
JSON (aiohttp ContentTypeError), or any other exception (network failure,
assistant failure) before a response is obtained. -/
inductive AttemptOutcome where
  | resp (status : Nat) (body : RespBody)
  | parse_failure
  | net_failure
  deriving DecidableEq

/-- The exception wrapped into the final IOError of the last retry
(line 160 of `zbit_perpetual_web_utils.py`): either the str() of the
line-148 IOError carrying the venue message, or some other exception. -/
inductive LastError where
  | venue (m : String)
  | net
  deriving DecidableEq

/-- How a call of `api_request` can end: return the parsed body, raise the
ContentTypeError-path IOError, raise the last-retry IOError wrapping the
final attempt's exception, or fall off the end of the `for` loop and
return Python None. -/
inductive ApiResult where
  | success (body : RespBody)
  | parse_error
  | final_error (e : LastError)
  | none_return
  deriving DecidableEq

/-- The default error text used when the body has no `msg` field
(line 147). -/
def default_error_message (method path : String) (status : Nat) : String :=
  "Error executing request " ++ method ++ " " ++ path ++ ". HTTP status is "
    ++ toString status ++ "."

/-- Embeds the `for retry in range(3)` loop of `api_request`
(`src/hummingbot/connector/derivative/zbit_perpetual/zbit_perpetual_web_utils.py`,
lines 114-160).  `remaining` counts the loop slots left (3 at entry;
the body with index `retry` runs with `remaining = 3 - retry`), `consumed`
counts the HTTP attempts already executed, and `attempts i` is the outcome
of the i-th executed request.  A non-200 status with body code `-1021` and
a time synchronizer present resynchronizes and `continue`s; any other
non-200 status raises the line-148 IOError, which is caught by the
enclosing `except Exception` and retried while `retry < 2`, then re-raised
wrapped on the last slot.  A parse failure raises immediately.  Exhausting
the loop via `continue` returns None. -/
def api_request_loop (has_time_synchronizer : Bool) (method path : String)
    (attempts : Nat → AttemptOutcome) : Nat → Nat → ApiResult × Nat
  | 0, consumed => (ApiResult.none_return, consumed)
  | remaining + 1, consumed =>
    match attempts consumed with
    | AttemptOutcome.parse_failure => (ApiResult.parse_error, consumed + 1)
    | AttemptOutcome.net_failure =>
      if 0 < remaining then
        api_request_loop has_time_synchronizer method path attempts remaining (consumed + 1)
      else (ApiResult.final_error LastError.net, consumed + 1)
    | AttemptOutcome.resp status body =>
      if status = 200 then (ApiResult.success body, consumed + 1)
      else if body.code = some (-1021) ∧ has_time_synchronizer = true then
        api_request_loop has_time_synchronizer method path attempts remaining (consumed + 1)
      else if 0 < remaining then
        api_request_loop has_time_synchronizer method path attempts remaining (consumed + 1)
      else
        (ApiResult.final_error
          (LastError.venue (body.msg.getD (default_error_message method path status))),
         consumed + 1)

/-- A full `api_request` call: three loop slots, no attempts executed yet.
Returns the result together with the number of HTTP attempts executed. -/
def api_request (has_time_synchronizer : Bool) (method path : String)
    (attempts : Nat → AttemptOutcome) : ApiResult × Nat :=
  api_request_loop has_time_synchronizer method path attempts 3 0

end ZbitPerpWebUtils

namespace ZbitExchange

/-- Python values as they occur in the canned responses of
`ZbitExchange._api_request`. -/
inductive PyVal where
  | vstr (s : String)
  | vint (n : Int)
  | vbool (b : Bool)
  | vlist (l : List PyVal)
  | vdict (d : List (String × PyVal))

/-- `ACCOUNT_URL` from `zbit_constants.py` (line 19). -/
def ACCOUNT_URL : String := "/api/v1/account"

/-- `EXCHANGE_INFO_URL` from `zbit_constants.py` (line 11). -/
def EXCHANGE_INFO_URL : String := "/api/v1/exchangeInfo"

/-- `ORDER_BOOK_URL` from `zbit_constants.py` (line 12). -/
def ORDER_BOOK_URL : String := "/api/v1/depth"

/-- The canned account body (`zbit_exchange.py` lines 236-256). -/
def mock_account_response : List (String × PyVal) :=
  [("makerCommission", PyVal.vint 10), ("takerCommission", PyVal.vint 10),
   ("buyerCommission", PyVal.vint 0), ("sellerCommission", PyVal.vint 0),
   ("canTrade", PyVal.vbool true), ("canWithdraw", PyVal.vbool true),
   ("canDeposit", PyVal.vbool true),
   ("balances", PyVal.vlist
     [PyVal.vdict [("asset", PyVal.vstr "BTC"), ("free", PyVal.vstr "1.0"),
                   ("locked", PyVal.vstr "0.0")],
      PyVal.vdict [("asset", PyVal.vstr "USDT"), ("free", PyVal.vstr "1000.0"),
                   ("locked", PyVal.vstr "0.0")]])]

/-- The canned exchange-info body (lines 258-287); `server_time_ms` stands
for `int(time.time() * 1000)`. -/
def mock_exchange_info_response (server_time_ms : Int) : List (String × PyVal) :=
  [("timezone", PyVal.vstr "UTC"), ("serverTime", PyVal.vint server_time_ms),
   ("symbols", PyVal.vlist
     [PyVal.vdict
       [("symbol", PyVal.vstr "BTCUSDT"), ("status", PyVal.vstr "TRADING"),
        ("baseAsset", PyVal.vstr "BTC"), ("quoteAsset", PyVal.vstr "USDT"),
        ("filters", PyVal.vlist
          [PyVal.vdict [("filterType", PyVal.vstr "PRICE_FILTER"),
                        ("minPrice", PyVal.vstr "0.01"),
                        ("maxPrice", PyVal.vstr "100000.0"),
                        ("tickSize", PyVal.vstr "0.01")],
           PyVal.vdict [("filterType", PyVal.vstr "LOT_SIZE"),
                        ("minQty", PyVal.vstr "0.00001"),
                        ("maxQty", PyVal.vstr "9000.0"),
                        ("stepSize", PyVal.vstr "0.00001")],
           PyVal.vdict [("filterType", PyVal.vstr "MIN_NOTIONAL"),
                        ("minNotional", PyVal.vstr "10.0")]])]])]

/-- The canned two-level order-book body (lines 288-299). -/
def mock_depth_response : List (String × PyVal) :=
  [("lastUpdateId", PyVal.vint 123456789),
   ("bids", PyVal.vlist
     [PyVal.vlist [PyVal.vstr "30000.0", PyVal.vstr "1.0"],
      PyVal.vlist [PyVal.vstr "29990.0", PyVal.vstr "2.0"]]),
   ("asks", PyVal.vlist
     [PyVal.vlist [PyVal.vstr "30010.0", PyVal.vstr "1.0"],
      PyVal.vlist [PyVal.vstr "30020.0", PyVal.vstr "2.0"]])]

/-- The generic fallback stub (line 301). -/
def mock_generic_response : List (String × PyVal) :=
  [("success", PyVal.vbool true), ("message", PyVal.vstr "Mock response for testing")]

/-- Embeds `ZbitExchange._api_request` (`zbit_exchange.py` lines 222-301):
no network I/O; the requested path is matched against the three known
endpoint substrings, otherwise the generic stub is returned.  `method`,
`params` and `data` are accepted (as in the source signature) but do not
influence the canned response. -/
def api_request_mock (server_time_ms : Int) (method path_url : String)
    (params : List (String × PyVal)) : List (String × PyVal) :=
  if PyStr.strContains path_url ACCOUNT_URL then mock_account_response
  else if PyStr.strContains path_url EXCHANGE_INFO_URL then
    mock_exchange_info_response server_time_ms
  else if PyStr.strContains path_url ORDER_BOOK_URL then mock_depth_response
  else mock_generic_response

/-- Python dictionary subscription `d[k]`: KeyError when the key is
absent. -/
def py_getitem (d : List (String × PyVal)) (k : String) : Except String PyVal :=
  match d.find? (fun kv => kv.1 == k) with
  | some kv => Except.ok kv.2
  | none => Except.error ("KeyError: " ++ k)

/-- Python `str()` on the scalar values that can appear here. -/
def py_str : PyVal → String
  | PyVal.vstr s => s
  | PyVal.vint n => toString n
  | PyVal.vbool b => if b then "True" else "False"
  | PyVal.vlist _ => "<list>"
  | PyVal.vdict _ => "<dict>"

/-- The order-type enum members used by `_place_order` via
`order_type.name`. -/
inductive SpotOrderType where
  | LIMIT
  | MARKET
  | LIMIT_MAKER
  deriving DecidableEq

/-- `order_type.name` for the members above. -/
def order_type_name : SpotOrderType → String
  | SpotOrderType.LIMIT => "LIMIT"
  | SpotOrderType.MARKET => "MARKET"
  | SpotOrderType.LIMIT_MAKER => "LIMIT_MAKER"

/-- Embeds `ZbitExchange._place_order` (`zbit_exchange.py` lines 508-536):
build the order params, call the connector's own `_api_request` with path
`"/api/v1/order"`, and subscript the response at `"orderId"`
(`order_result["orderId"]`, wrapped by `str(...)`). -/
def place_order (server_time_ms : Int) (is_buy : Bool) (amount : String)
    (order_type : SpotOrderType) (trading_pair : String)
    (price : Option String) : Except String String :=
  let params : List (String × PyVal) :=
    [("symbol", PyVal.vstr trading_pair),
     ("side", PyVal.vstr (if is_buy then "BUY" else "SELL")),
     ("type", PyVal.vstr (order_type_name order_type)),
     ("quantity", PyVal.vstr amount)]
  let params :=
    if order_type = SpotOrderType.LIMIT then
      params ++ [("price", PyVal.vstr (price.getD "None")),
                 ("timeInForce", PyVal.vstr "GTC")]
    else params
  let order_result := api_request_mock server_time_ms "POST" "/api/v1/order" params
  match py_getitem order_result "orderId" with
  | Except.ok v => Except.ok (py_str v)
  | Except.error e => Except.error e

end ZbitExchange

namespace Allvtt

/-- One line of an input file, as returned by `readlines()` (a list of
characters, possibly with surrounding whitespace and a trailing newline). -/
abbrev Line := List Char

/-- The text `"Language:"` tested on both stripped lines. -/
def languageTag : Line := "Language:".toList

/-- The cue-timing marker `"-->"`. -/
def arrowTag : Line := "-->".toList

/-- The opening marker `"<v>"` of a combined cue-text line. -/
def vOpenTag : Line := "<v>".toList

/-- The closing marker `"</v>"` of a combined cue-text line. -/
def vCloseTag : Line := "</v>".toList

/-- The combined cue-text line
`f"\x7ben_text_line\x7d <v> \x7bzh_text_line\x7d</v>\n"` built on line 42
of `src/allvtt.py` from the two stripped text lines. -/
def cue_merged_line (en_text zh_text : Line) : Line :=
  PyStr.pyStrip en_text ++ (" <v> ".toList ++ (PyStr.pyStrip zh_text ++ "</v>\n".toList))

/-- Embeds the merge loop of `merge_vtt_files` (`src/allvtt.py`,
lines 20-55), which walks the two files in lock-step.  A `Language:` pair
is dropped; a pair of `-->` lines emits the stripped English timing line
and then consumes the next line of each file as cue text, emitting the
combined line; a pair of blank lines collapses to one newline; any other
pair is emitted as two lines.  Indexing past the end of either file in the
cue branch (`en_lines[en_index]` after the increment) is Python IndexError,
modelled as `none`. -/
def merge_vtt : List Line → List Line → Option (List Line)
  | e :: es, z :: zs =>
    let en_line := PyStr.pyStrip e
    let zh_line := PyStr.pyStrip z
    if PyStr.hasSub languageTag en_line || PyStr.hasSub languageTag zh_line then
      merge_vtt es zs
    else if PyStr.hasSub arrowTag en_line && PyStr.hasSub arrowTag zh_line then
      match es, zs with
      | et :: es2, zt :: zs2 =>
        match merge_vtt es2 zs2 with
        | some rest => some ((en_line ++ ['\n']) :: cue_merged_line et zt :: rest)
        | none => none
      | _, _ => none
    else if en_line.isEmpty && zh_line.isEmpty then
      match merge_vtt es zs with
      | some rest => some (['\n'] :: rest)
      | none => none
    else
      match merge_vtt es zs with
      | some rest => some ((en_line ++ ['\n']) :: (zh_line ++ ['\n']) :: rest)
      | none => none
  | _, _ => some []

/-- The numbers of `Language:` pairs, cue-timing pairs and blank-line
pairs collapsed along the merge path of the same two files. -/
def merge_counts : List Line → List Line → Nat × Nat × Nat
  | e :: es, z :: zs =>
    let en_line := PyStr.pyStrip e
    let zh_line := PyStr.pyStrip z
    if PyStr.hasSub languageTag en_line || PyStr.hasSub languageTag zh_line then
      let c := merge_counts es zs
      (c.1 + 1, c.2.1, c.2.2)
    else if PyStr.hasSub arrowTag en_line && PyStr.hasSub arrowTag zh_line then
      match es, zs with
      | _ :: es2, _ :: zs2 =>
        let c := merge_counts es2 zs2
        (c.1, c.2.1 + 1, c.2.2)
      | _, _ => (0, 0, 0)
    else if en_line.isEmpty && zh_line.isEmpty then
      let c := merge_counts es zs
      (c.1, c.2.1, c.2.2 + 1)
    else merge_counts es zs
  | _, _ => (0, 0, 0)

/-- The structural hypotheses under which the amended merge contract is
stated, checked along the same lock-step walk as the merge itself: the two
files have the same number of lines; at every non-`Language:` position a
`-->` marker occurs in both lines or in neither; every `-->` pair is
followed by a cue-text pair whose combined line itself contains no `-->`. -/
def lockstep_wf : List Line → List Line → Bool
  | e :: es, z :: zs =>
    let en_line := PyStr.pyStrip e
    let zh_line := PyStr.pyStrip z
    if PyStr.hasSub languageTag en_line || PyStr.hasSub languageTag zh_line then
      lockstep_wf es zs
    else if PyStr.hasSub arrowTag en_line && PyStr.hasSub arrowTag zh_line then
      match es, zs with
      | et :: es2, zt :: zs2 =>
        !PyStr.hasSub arrowTag (cue_merged_line et zt) && lockstep_wf es2 zs2
      | _, _ => false
    else if PyStr.hasSub arrowTag en_line || PyStr.hasSub arrowTag zh_line then
      false
    else if en_line.isEmpty && zh_line.isEmpty then
      lockstep_wf es zs
    else lockstep_wf es zs
  | [], [] => true
  | _, _ => false

/-- Does every output line containing `-->` have an immediate successor
containing both `<v>` and `</v>`? -/
def arrows_followed : List Line → Bool
  | [] => true
  | l :: rest =>
    (if PyStr.hasSub arrowTag l then
      match rest with
      | l2 :: _ => PyStr.hasSub vOpenTag l2 && PyStr.hasSub vCloseTag l2
      | [] => false
    else true) && arrows_followed rest

end Allvtt

namespace JsonDemo

/-- JSON scalar values occurring in the demo dictionary of
`src/PycharmProjects/pythonProject/p01.py`. -/
inductive JVal where
  | jstr (s : String)
  | jint (n : Int)
  deriving DecidableEq

/-- A Python dictionary key: text or integer. -/
inductive PyKey where
  | ks (s : String)
  | ki (n : Int)
  deriving DecidableEq

/-- The opening brace character. -/
def lbrace : Char := Char.ofNat 123

/-- The closing brace character. -/
def rbrace : Char := Char.ofNat 125

/-- JSON string quoting (the demo data contains no characters that need
escaping). -/
def quote_str (s : String) : String := "\"" ++ s ++ "\""

/-- `json.dump` key serialization: a text key is quoted; a non-text
(integer) key is coerced to its text form and then quoted. -/
def dump_key : PyKey → String
  | PyKey.ks s => quote_str s
  | PyKey.ki n => quote_str (toString n)

/-- `json.dump` value serialization for the scalar values used. -/
def dump_val : JVal → String
  | JVal.jstr s => quote_str s
  | JVal.jint n => toString n

/-- Embeds `json.dump(info, f)` for a flat dictionary: keys and values
serialized in insertion order with the default separators
(item separator is a comma and a space, key separator is a colon and a
space), wrapped in braces. -/
def json_dumps (obj : List (PyKey × JVal)) : String :=
  String.mk [lbrace]
    ++ String.intercalate ", " (obj.map (fun kv => dump_key kv.1 ++ ": " ++ dump_val kv.2))
    ++ String.mk [rbrace]

/-- Parse the body of a quoted JSON string (the opening quote already
consumed), returning the text and the remaining input. -/
def parseStringBody : List Char → List Char → Option (String × List Char)
  | [], _ => none
  | c :: rest, acc =>
    if c = '\"' then some (String.mk acc.reverse, rest)
    else parseStringBody rest (c :: acc)

/-- Collect leading decimal digits. -/
def takeDigits : List Char → List Char × List Char
  | [] => ([], [])
  | c :: rest =>
    if c.isDigit then
      let p := takeDigits rest
      (c :: p.1, p.2)
    else ([], c :: rest)

/-- Numeric value of a digit list. -/
def digitsToNat (ds : List Char) : Nat :=
  ds.foldl (fun n c => 10 * n + (c.toNat - 48)) 0

/-- Parse one JSON scalar value: a quoted string or an integer literal. -/
def parseValue (l : List Char) : Option (JVal × List Char) :=
  match l with
  | [] => none
  | c :: rest =>
    if c = '\"' then
      match parseStringBody rest [] with
      | some p => some (JVal.jstr p.1, p.2)
      | none => none
    else
      match takeDigits (c :: rest) with
      | ([], _) => none
      | (ds, rest2) => some (JVal.jint (Int.ofNat (digitsToNat ds)), rest2)

/-- Parse the comma-separated entries of a JSON object, consuming the
closing brace; `fuel` bounds the recursion by the input length. -/
def parseEntries : Nat → List Char → Option (List (String × JVal) × List Char)
  | 0, _ => none
  | fuel + 1, l =>
    match l with
    | c0 :: r0 =>
      if c0 = '\"' then
        match parseStringBody r0 [] with
        | none => none
        | some (k, r1) =>
          match r1 with
          | c1 :: c2 :: r2 =>
            if c1 = ':' ∧ c2 = ' ' then
              match parseValue r2 with
              | none => none
              | some (v, r3) =>
                match r3 with
                | c3 :: r4 =>
                  if c3 = rbrace then some ([(k, v)], r4)
                  else if c3 = ',' then
                    match r4 with
                    | c4 :: r5 =>
                      if c4 = ' ' then
                        match parseEntries fuel r5 with
                        | some (entries, r6) => some ((k, v) :: entries, r6)
                        | none => none
                      else none
                    | [] => none
                  else none
                | [] => none
            else none
          | _ => none
      else none
    | [] => none

/-- Embeds `json.loads` for the flat-object fragment produced above:
parse a brace-delimited object of string keys and scalar values, requiring
the whole input to be consumed. -/
def json_loads (s : String) : Option (List (String × JVal)) :=
  match s.toList with
  | c :: rest =>
    if c = lbrace then
      match rest with
      | d :: r1 =>
        if d = rbrace then (if r1.isEmpty then some [] else none)
        else
          match parseEntries rest.length rest with
          | some (entries, []) => some entries
          | _ => none
      | [] => none
    else none
  | [] => none

/-- The literal dictionary of `p01.py` line 3:
`info = \x7b'name':'tom', 'age':18, 1:'one'\x7d`. -/
def info : List (PyKey × JVal) :=
  [(PyKey.ks "name", JVal.jstr "tom"), (PyKey.ks "age", JVal.jint 18),
   (PyKey.ki 1, JVal.jstr "one")]

/-- The text form a key takes after a dump/load round trip. -/
def coerce_key : PyKey → String
  | PyKey.ks s => s
  | PyKey.ki n => toString n

end JsonDemo

/-
THEOREMS.  Helper lemmas first, then one theorem per claim (with witness
or counterexample theorems where required).
-/

namespace PyStr

theorem startsWithSeg_append (p s b : List Char) (h : startsWithSeg s p = true) :
    startsWithSeg (s ++ b) p = true := by
  induction p generalizing s with
  | nil => simp [startsWithSeg]
  | cons c cs ih =>
    cases s with
    | nil => simp [startsWithSeg] at h
    | cons a as_ =>
      simp only [startsWithSeg, List.cons_append, Bool.and_eq_true] at h ⊢
      exact ⟨h.1, ih as_ h.2⟩

theorem hasSub_append_left (p a b : List Char) (h : hasSub p a = true) :
    hasSub p (a ++ b) = true := by
  induction a with
  | nil =>
    cases p with
    | nil => cases b <;> simp [hasSub, startsWithSeg]
    | cons c cs => simp [hasSub, startsWithSeg] at h
  | cons x xs ih =>
    simp only [hasSub, Bool.or_eq_true, List.cons_append] at h ⊢
    cases h with
    | inl h => exact Or.inl (startsWithSeg_append p (x :: xs) b h)
    | inr h => exact Or.inr (ih h)

theorem hasSub_append_right (p a b : List Char) (h : hasSub p b = true) :
    hasSub p (a ++ b) = true := by
  induction a with
  | nil => simpa using h
  | cons x xs ih =>
    simp only [hasSub, Bool.or_eq_true, List.cons_append]
    exact Or.inr ih

end PyStr

namespace ZbitOrderBook

theorem parse_levels_eq_filter (levels : List (ℚ × ℚ)) :
    parse_levels levels = levels.filter (fun level => decide (0 < level.2)) := by
  have aux : ∀ (ls : List (ℚ × ℚ)) (acc : List (ℚ × ℚ)),
      ls.foldl (fun acc level => if 0 < level.2 then acc ++ [level] else acc) acc
        = acc ++ ls.filter (fun level => decide (0 < level.2)) := by
    intro ls
    induction ls with
    | nil => intro acc; simp
    | cons l ls ih =>
      intro acc
      by_cases h : 0 < l.2
      · simp [List.filter, h, ih]
      · simp [List.filter, h, ih]
  simpa using aux levels []

theorem mem_parse_levels (levels : List (ℚ × ℚ)) (x : ℚ × ℚ) :
    x ∈ parse_levels levels ↔ x ∈ levels ∧ 0 < x.2 := by
  rw [parse_levels_eq_filter, List.mem_filter]
  simp

end ZbitOrderBook

/-- Claim C5: the ZBit perpetual account-summary margin-ratio computation
is total (never a division error): a zero maintenance margin yields the
sentinel 999 instead of dividing, and maintenance margin 50 with margin
balance 500 yields exactly 10. -/
theorem zbit_perp_margin_ratio_sentinel :
    (∀ mb mm : ℚ, (ZbitPerpDerivative.summary_margin_ratio mb mm).isSome = true)
    ∧ (∀ mb : ℚ, ZbitPerpDerivative.summary_margin_ratio mb 0 = some 999)
    ∧ ZbitPerpDerivative.summary_margin_ratio 500 50 = some 10 := by
  refine ⟨fun mb mm => ?_, fun mb => ?_, ?_⟩
  · unfold ZbitPerpDerivative.summary_margin_ratio ZbitPerpDerivative.dec_div
    by_cases h : 0 < mm
    · simp [h, ne_of_gt h]
    · simp [h]
  · simp [ZbitPerpDerivative.summary_margin_ratio]
  · rw [ZbitPerpDerivative.summary_margin_ratio, if_pos (by norm_num),
      ZbitPerpDerivative.dec_div, if_neg (by norm_num)]
    norm_num

/-- Claim C6: `map_order_side` maps the four (position action, trade type)
pairs of its table to BUY_OPEN / SELL_CLOSE / SELL_OPEN / BUY_CLOSE and
returns the default "BUY_OPEN" for every combination outside the table. -/
theorem zbit_perp_map_order_side_table :
    ZbitPerpUtils.map_order_side ZbitPerpUtils.TradeType.BUY ZbitPerpUtils.PositionAction.OPEN = "BUY_OPEN"
    ∧ ZbitPerpUtils.map_order_side ZbitPerpUtils.TradeType.SELL ZbitPerpUtils.PositionAction.CLOSE = "SELL_CLOSE"
    ∧ ZbitPerpUtils.map_order_side ZbitPerpUtils.TradeType.SELL ZbitPerpUtils.PositionAction.OPEN = "SELL_OPEN"
    ∧ ZbitPerpUtils.map_order_side ZbitPerpUtils.TradeType.BUY ZbitPerpUtils.PositionAction.CLOSE = "BUY_CLOSE"
    ∧ ∀ (t : ZbitPerpUtils.TradeType) (p : ZbitPerpUtils.PositionAction),
        (p, t) ∉ ZbitPerpUtils.side_map_keys →
        ZbitPerpUtils.map_order_side t p = "BUY_OPEN" := by
  refine ⟨rfl, rfl, rfl, rfl, ?_⟩
  intro t p h
  cases t <;> cases p <;>
    simp_all [ZbitPerpUtils.side_map_keys, ZbitPerpUtils.map_order_side]

/-- Witness for C6: the unmapped combination (NIL, RANGE) takes the
default. -/
theorem zbit_perp_map_order_side_table_witness :
    ZbitPerpUtils.map_order_side ZbitPerpUtils.TradeType.RANGE ZbitPerpUtils.PositionAction.NIL = "BUY_OPEN" :=
  zbit_perp_map_order_side_table.2.2.2.2 ZbitPerpUtils.TradeType.RANGE
    ZbitPerpUtils.PositionAction.NIL (by decide)

/-- Claim C7: in the translated ZBit spot diff message, a bid or ask level
whose parsed amount is 0 is absent, and a level with positive parsed
amount appears (as the same numeric pair) exactly when it is present in
the raw payload. -/
theorem zbit_diff_zero_amount_levels (msg : ZbitOrderBook.DiffMsg) (p a : ℚ) :
    ((p, (0 : ℚ)) ∉ (ZbitOrderBook.diff_message_from_exchange msg).bids
      ∧ (p, (0 : ℚ)) ∉ (ZbitOrderBook.diff_message_from_exchange msg).asks)
    ∧ (0 < a →
        (((p, a) ∈ (ZbitOrderBook.diff_message_from_exchange msg).bids ↔
            ∃ levels, msg.bids = some levels ∧ (p, a) ∈ levels)
        ∧ ((p, a) ∈ (ZbitOrderBook.diff_message_from_exchange msg).asks ↔
            ∃ levels, msg.asks = some levels ∧ (p, a) ∈ levels))) := by
  constructor
  · constructor
    · intro hmem
      unfold ZbitOrderBook.diff_message_from_exchange at hmem
      cases hb : msg.bids with
      | none => rw [hb] at hmem; simp at hmem
      | some levels =>
        rw [hb] at hmem
        simp only at hmem
        rcases (ZbitOrderBook.mem_parse_levels levels _).mp hmem with ⟨-, hpos⟩
        exact absurd hpos (by norm_num)
    · intro hmem
      unfold ZbitOrderBook.diff_message_from_exchange at hmem
      cases hb : msg.asks with
      | none => rw [hb] at hmem; simp at hmem
      | some levels =>
        rw [hb] at hmem
        simp only at hmem
        rcases (ZbitOrderBook.mem_parse_levels levels _).mp hmem with ⟨-, hpos⟩
        exact absurd hpos (by norm_num)
  · intro ha
    constructor
    · unfold ZbitOrderBook.diff_message_from_exchange
      cases hb : msg.bids with
      | none => simp
      | some levels =>
        simp only [ZbitOrderBook.mem_parse_levels, Option.some.injEq]
        constructor
        · rintro ⟨hmem, -⟩; exact ⟨levels, rfl, hmem⟩
        · rintro ⟨ls, hls, hmem⟩; exact ⟨hls ▸ hmem, ha⟩
    · unfold ZbitOrderBook.diff_message_from_exchange
      cases hb : msg.asks with
      | none => simp
      | some levels =>
        simp only [ZbitOrderBook.mem_parse_levels, Option.some.injEq]
        constructor
        · rintro ⟨hmem, -⟩; exact ⟨levels, rfl, hmem⟩
        · rintro ⟨ls, hls, hmem⟩; exact ⟨hls ▸ hmem, ha⟩

/-- Witness for C7 at the concrete payload of the claim: bids
[[100, 0], [100, 1/2]] translate so that the zero-amount level is gone and
the positive one is present. -/
theorem zbit_diff_zero_amount_levels_witness :
    ((100, (0 : ℚ)) ∉ (ZbitOrderBook.diff_message_from_exchange
        ⟨some [(100, 0), (100, 1 / 2)], none⟩).bids)
    ∧ ((100, (1 / 2 : ℚ)) ∈ (ZbitOrderBook.diff_message_from_exchange
        ⟨some [(100, 0), (100, 1 / 2)], none⟩).bids ↔
        ∃ levels, (some [(100, 0), (100, (1 / 2 : ℚ))] : Option (List (ℚ × ℚ))) = some levels
          ∧ (100, (1 / 2 : ℚ)) ∈ levels) := by
  refine ⟨(zbit_diff_zero_amount_levels ⟨some [(100, 0), (100, 1 / 2)], none⟩ 100 (1 / 2)).1.1,
    ((zbit_diff_zero_amount_levels ⟨some [(100, 0), (100, 1 / 2)], none⟩ 100 (1 / 2)).2 (by norm_num)).1⟩

/-- Claim C9: serializing the demo dictionary (text keys "name"/"age" and
the integer key 1) and deserializing the result yields the same entries
with the integer key coerced to the text key "1". -/
theorem json_round_trip_demo :
    JsonDemo.json_loads (JsonDemo.json_dumps JsonDemo.info)
      = some (JsonDemo.info.map (fun kv => (JsonDemo.coerce_key kv.1, kv.2))) := by
  rfl

/-- Claim C4 (code-bug evaluation): `_place_order` builds the order
params and calls the connector's mock `_api_request` with path
`"/api/v1/order"`; that path contains none of the account /
exchangeInfo / depth substrings, so the dispatcher returns the generic
success stub, which carries no `"orderId"` key — the subscription
`order_result["orderId"]` therefore raises KeyError instead of returning
an echoed order id. -/
theorem zbit_place_order_key_error :
    (∀ params, ZbitExchange.api_request_mock 0 "POST" "/api/v1/order" params
      = ZbitExchange.mock_generic_response)
    ∧ ZbitExchange.place_order 0 true "1" ZbitExchange.SpotOrderType.LIMIT
        "BTCUSDT" (some "30000")
      = Except.error "KeyError: orderId" :=
  ⟨fun _ => rfl, rfl⟩

/-- Claim C10 (code-bug evaluation): the module
`zbit_avellaneda_market_making.py` never imports `asyncio`, so the
`filled_order_delay` coroutine scheduled by `did_fill_order` raises
NameError at its first statement `await asyncio.sleep(delay)` and never
reaches the cancel-and-requote steps, for any market-readiness state. -/
theorem avellaneda_filled_order_delay_name_error :
    Avellaneda.module_globals.contains "asyncio" = false
    ∧ Avellaneda.run_filled_order_delay Avellaneda.module_globals true 60
        = Except.error "NameError: name asyncio is not defined"
    ∧ ∀ ready : Bool,
        Avellaneda.coroutine_completed
          (Avellaneda.run_filled_order_delay Avellaneda.module_globals ready 60) = false := by
  refine ⟨by decide, by rfl, ?_⟩
  intro ready
  cases ready <;> rfl

/-- Counterexample for C2: an `api_request` run whose first attempt
receives HTTP 400 with a body that has no code field does NOT raise
immediately — the line-148 IOError is caught by the enclosing generic
`except Exception`, the attempt slot is consumed, and the call goes on to
SUCCEED on the second attempt (2 attempts executed), which would be
impossible if the first non-200 response raised to the caller at once. -/
theorem zbit_perp_api_request_counterexample :
    ZbitPerpWebUtils.api_request false "GET" "account"
        (fun i => if i = 0 then ZbitPerpWebUtils.AttemptOutcome.resp 400 ⟨none, some "denied"⟩
                  else ZbitPerpWebUtils.AttemptOutcome.resp 200 ⟨none, some "ok"⟩)
      = (ZbitPerpWebUtils.ApiResult.success ⟨none, some "ok"⟩, 2) := by
  rfl

/-- Claim C2 amended: a non-200 response without code -1021 raises the
venue-message IOError inside the `try`, so it is caught and retried; with
every attempt answering that way the call consumes all three attempt
slots and ends with the wrapped final IOError still carrying the venue
message.  The -1021-with-synchronizer path resynchronizes and `continue`s,
which does advance the loop counter: three such responses exhaust the loop
and the function falls through, returning None. -/
theorem zbit_perp_api_request_retry_behaviour
    (has_sync : Bool) (status : Nat) (code : Option Int) (m method path : String)
    (hs : status ≠ 200) (hc : code ≠ some (-1021)) :
    ZbitPerpWebUtils.api_request has_sync method path
        (fun _ => ZbitPerpWebUtils.AttemptOutcome.resp status ⟨code, some m⟩)
      = (ZbitPerpWebUtils.ApiResult.final_error (ZbitPerpWebUtils.LastError.venue m), 3)
    ∧ ZbitPerpWebUtils.api_request true method path
        (fun _ => ZbitPerpWebUtils.AttemptOutcome.resp status ⟨some (-1021), some m⟩)
      = (ZbitPerpWebUtils.ApiResult.none_return, 3) := by
  constructor
  · simp [ZbitPerpWebUtils.api_request, ZbitPerpWebUtils.api_request_loop, hs, hc]
  · simp [ZbitPerpWebUtils.api_request, ZbitPerpWebUtils.api_request_loop, hs]

/-- Witness for the amended C2 at a concrete non-200, non--1021
response. -/
theorem zbit_perp_api_request_retry_behaviour_witness :
    ZbitPerpWebUtils.api_request false "GET" "account"
        (fun _ => ZbitPerpWebUtils.AttemptOutcome.resp 400 ⟨none, some "denied"⟩)
      = (ZbitPerpWebUtils.ApiResult.final_error (ZbitPerpWebUtils.LastError.venue "denied"), 3)
    ∧ ZbitPerpWebUtils.api_request true "GET" "account"
        (fun _ => ZbitPerpWebUtils.AttemptOutcome.resp 400 ⟨some (-1021), some "denied"⟩)
      = (ZbitPerpWebUtils.ApiResult.none_return, 3) :=
  zbit_perp_api_request_retry_behaviour false 400 none "denied" "GET" "account"
    (by norm_num) (by simp)

namespace Avellaneda

theorem feed_mid_prices_drop :
    ∀ (mids acc : List ℚ), (∀ x ∈ mids, 0 < x) → acc.length ≤ volatility_window →
      feed_mid_prices acc mids
        = (acc ++ mids).drop (acc.length + mids.length - volatility_window) := by
  intro mids
  induction mids with
  | nil =>
    intro acc _ hlen
    unfold feed_mid_prices
    simp only [List.foldl_nil, List.append_nil, List.length_nil, Nat.add_zero]
    rw [show acc.length - volatility_window = 0 from by omega, List.drop_zero]
  | cons x mids ih =>
    intro acc hpos hlen
    have hx : 0 < x := hpos x (List.mem_cons_self x mids)
    have hpos2 : ∀ y ∈ mids, 0 < y := fun y hy => hpos y (List.mem_cons_of_mem x hy)
    show feed_mid_prices (tick_sample_step acc x) mids = _
    unfold tick_sample_step
    rw [if_pos hx]
    by_cases hfull : volatility_window < (acc ++ [x]).length
    · rw [if_pos hfull]
      have hacc : acc.length = volatility_window := by
        simp at hfull
        omega
      have hlen1 : ((acc ++ [x]).drop 1).length ≤ volatility_window := by
        simp
        omega
      rw [ih ((acc ++ [x]).drop 1) hpos2 hlen1]
      have e1 : (acc ++ x :: mids).drop 1 = (acc ++ [x]).drop 1 ++ mids := by
        rw [show acc ++ x :: mids = (acc ++ [x]) ++ mids from by simp,
          List.drop_append_of_le_length (show 1 ≤ (acc ++ [x]).length from by simp)]
      rw [← e1, List.drop_drop]
      congr 1
      simp
      omega
    · rw [if_neg hfull]
      have hlen1 : (acc ++ [x]).length ≤ volatility_window := by
        simp at hfull ⊢
        omega
      rw [ih (acc ++ [x]) hpos2 hlen1]
      rw [show (acc ++ [x]) ++ mids = acc ++ x :: mids from by simp]
      congr 1
      simp
      omega

end Avellaneda

/-- Counterexample for C1: with the default configuration values
min_spread = 0, max_spread = 1/10, γ = 1 and horizon 3600, at mid price
100 (> 0) and volatility 0 the parameter update yields
optimal_bid = optimal_ask = 100: the raw spread formula gives 0, the clamp
keeps 0, the crossing branch recenters with half of min_spread·mid = 0,
and the strict inequality optimal_bid < optimal_ask fails. -/
theorem avellaneda_spread_counterexample :
    Avellaneda.update_parameters ⟨1, 3600, 0, 1 / 10⟩ 0 1 100 100 0
      = some ⟨100, 0, 100, 100⟩
    ∧ ¬ ((100 : ℚ) < 100) := by
  constructor
  · simp [Avellaneda.update_parameters, Avellaneda.clamp_spread, Avellaneda.pymod,
      Avellaneda.reservation_price_of, Avellaneda.raw_spread_of,
      Avellaneda.inventory_ratio_of]
  · norm_num

/-- Claim C1 amended: whenever the parameter update produces a quote (mid
price nonzero) with 0 ≤ min_spread ≤ max_spread and mid price positive,
the spread bounds min_spread·mid ≤ optimal_ask − optimal_bid ≤
max_spread·mid hold for every volatility, balance and timestamp value, and
optimal_bid ≤ optimal_ask always; the STRICT inequality
optimal_bid < optimal_ask is guaranteed only when min_spread > 0 (with
min_spread = 0 and a nonpositive raw spread the two coincide, as the
counterexample shows). -/
theorem avellaneda_spread_bounds (cfg : Avellaneda.AvellanedaConfig)
    (vol base quote mid ts : ℚ)
    (hm : 0 < mid) (h0 : 0 ≤ cfg.min_spread) (h1 : cfg.min_spread ≤ cfg.max_spread)
    (q : Avellaneda.AvellanedaQuote)
    (hq : Avellaneda.update_parameters cfg vol base quote mid ts = some q) :
    cfg.min_spread * mid ≤ q.optimal_ask - q.optimal_bid
    ∧ q.optimal_ask - q.optimal_bid ≤ cfg.max_spread * mid
    ∧ q.optimal_bid ≤ q.optimal_ask
    ∧ (0 < cfg.min_spread → q.optimal_bid < q.optimal_ask) := by
  unfold Avellaneda.update_parameters at hq
  rw [if_neg (ne_of_gt hm)] at hq
  dsimp only at hq
  generalize hr : Avellaneda.reservation_price_of cfg vol base quote mid = r at hq
  generalize hsdef : Avellaneda.clamp_spread cfg mid (Avellaneda.raw_spread_of cfg vol ts) = s at hq
  have hs_lb : cfg.min_spread * mid ≤ s := hsdef ▸ le_max_left _ _
  have hs_ub : s ≤ cfg.max_spread * mid := by
    rw [← hsdef]
    exact max_le (mul_le_mul_of_nonneg_right h1 hm.le) (min_le_left _ _)
  have hmin_nonneg : 0 ≤ cfg.min_spread * mid := mul_nonneg h0 hm.le
  split at hq
  case isTrue hcross =>
    have hs_nonpos : s ≤ 0 := by linarith
    have hmin_zero : cfg.min_spread * mid = 0 := le_antisymm (by linarith) hmin_nonneg
    rw [Option.some.injEq] at hq
    subst hq
    refine ⟨by simp only; linarith, by simp only; linarith, by simp only; linarith, ?_⟩
    intro hpos
    exact absurd (mul_pos hpos hm) (by rw [hmin_zero]; exact lt_irrefl 0)
  case isFalse hcross =>
    push_neg at hcross
    rw [Option.some.injEq] at hq
    subst hq
    refine ⟨by simp only; linarith, by simp only; linarith, by simp only; linarith, ?_⟩
    intro hpos
    simp only
    linarith

/-- Witness for the amended C1 at the concrete quote computed in the
counterexample (mid 100, volatility 0, min_spread 0, max_spread 1/10). -/
theorem avellaneda_spread_bounds_witness :
    (0 : ℚ) * 100 ≤ (100 : ℚ) - 100
    ∧ (100 : ℚ) - 100 ≤ (1 / 10 : ℚ) * 100
    ∧ (100 : ℚ) ≤ 100
    ∧ ((0 : ℚ) < 0 → (100 : ℚ) < 100) :=
  avellaneda_spread_bounds ⟨1, 3600, 0, 1 / 10⟩ 0 1 100 100 0
    (by norm_num) (by norm_num) (by norm_num) ⟨100, 0, 100, 100⟩
    (by simp [Avellaneda.update_parameters, Avellaneda.clamp_spread, Avellaneda.pymod,
      Avellaneda.reservation_price_of, Avellaneda.raw_spread_of,
      Avellaneda.inventory_ratio_of])

/-- Claim C8: feeding 60 positive mid-price samples through the tick
sampling path starting from an empty window leaves exactly the most
recent 50 samples, the 10 oldest dropped first, and the window length is
the 50-sample cap. -/
theorem avellaneda_window_last_50 (mids : List ℚ)
    (hpos : ∀ x ∈ mids, 0 < x) (hlen : mids.length = 60) :
    Avellaneda.feed_mid_prices [] mids = mids.drop 10
    ∧ (Avellaneda.feed_mid_prices [] mids).length = Avellaneda.volatility_window := by
  have h := Avellaneda.feed_mid_prices_drop mids [] hpos
    (by simp [Avellaneda.volatility_window])
  simp only [List.nil_append, List.length_nil, Nat.zero_add] at h
  rw [hlen] at h
  have h10 : 60 - Avellaneda.volatility_window = 10 := by
    simp [Avellaneda.volatility_window]
  rw [h10] at h
  refine ⟨h, ?_⟩
  rw [h, List.length_drop, hlen]
  simp [Avellaneda.volatility_window]

/-- Witness for C8: the 60 distinct samples 1, 2, ..., 60 leave exactly
11, 12, ..., 60 in the window. -/
theorem avellaneda_window_last_50_witness :
    Avellaneda.feed_mid_prices [] ((List.range 60).map (fun i : ℕ => ((i : ℚ) + 1)))
      = ((List.range 60).map (fun i : ℕ => ((i : ℚ) + 1))).drop 10
    ∧ (Avellaneda.feed_mid_prices [] ((List.range 60).map (fun i : ℕ => ((i : ℚ) + 1)))).length
      = Avellaneda.volatility_window :=
  avellaneda_window_last_50 ((List.range 60).map (fun i : ℕ => ((i : ℚ) + 1)))
    (by
      intro x hx
      simp only [List.mem_map, List.mem_range] at hx
      obtain ⟨i, _, rfl⟩ := hx
      positivity)
    (by simp)

namespace PyStr

theorem hasSub_of_startsWithSeg (p l : List Char) (h : startsWithSeg l p = true) :
    hasSub p l = true := by
  cases l with
  | nil =>
    cases p with
    | nil => rfl
    | cons d ds => simp [startsWithSeg] at h
  | cons c cs => simp [hasSub, h]

theorem hasSub_cons_of (p : List Char) (c : Char) (l : List Char)
    (h : hasSub p l = true) : hasSub p (c :: l) = true := by
  simp [hasSub, h]

theorem startsWithSeg_nil (l : List Char) : startsWithSeg l [] = true := by
  cases l <;> rfl

theorem startsWithSeg_append_single (pat : List Char) (c0 : Char)
    (hc : ∀ d ∈ pat, d ≠ c0) :
    ∀ l : List Char, startsWithSeg (l ++ [c0]) pat = startsWithSeg l pat := by
  induction pat with
  | nil => intro l; rw [startsWithSeg_nil, startsWithSeg_nil]
  | cons d ds ih =>
    intro l
    cases l with
    | nil =>
      have hd : d ≠ c0 := hc d (List.mem_cons_self d ds)
      simp only [List.nil_append, startsWithSeg]
      rw [Bool.eq_false_iff]
      intro hcontra
      rw [Bool.and_eq_true, beq_iff_eq] at hcontra
      exact hd hcontra.1.symm
    | cons a as_ =>
      simp only [List.cons_append, startsWithSeg, List.append_eq]
      rw [ih (fun x hx => hc x (List.mem_cons_of_mem d hx)) as_]

theorem hasSub_append_single (p : List Char) (c0 : Char)
    (hc : ∀ d ∈ p, d ≠ c0) :
    ∀ l : List Char, hasSub p (l ++ [c0]) = hasSub p l := by
  intro l
  induction l with
  | nil =>
    cases p with
    | nil => rfl
    | cons d ds =>
      have hd : d ≠ c0 := hc d (List.mem_cons_self d ds)
      show (startsWithSeg [c0] (d :: ds) || hasSub (d :: ds) []) = hasSub (d :: ds) []
      have h1 : startsWithSeg [c0] (d :: ds) = false := by
        simp only [startsWithSeg]
        rw [Bool.eq_false_iff]
        intro hcontra
        rw [Bool.and_eq_true, beq_iff_eq] at hcontra
        exact hd hcontra.1.symm
      rw [h1, Bool.false_or]
  | cons a as_ ih =>
    show (startsWithSeg ((a :: as_) ++ [c0]) p || hasSub p (as_ ++ [c0]))
        = (startsWithSeg (a :: as_) p || hasSub p as_)
    rw [ih, startsWithSeg_append_single p c0 hc (a :: as_)]

end PyStr

namespace Allvtt

theorem vOpen_in_cue (et zt : Line) :
    PyStr.hasSub vOpenTag (cue_merged_line et zt) = true := by
  unfold cue_merged_line
  apply PyStr.hasSub_append_right
  show PyStr.hasSub vOpenTag
    (' ' :: '<' :: 'v' :: '>' :: ' ' :: (PyStr.pyStrip zt ++ "</v>\n".toList)) = true
  apply PyStr.hasSub_cons_of
  apply PyStr.hasSub_of_startsWithSeg
  rfl

theorem vClose_in_cue (et zt : Line) :
    PyStr.hasSub vCloseTag (cue_merged_line et zt) = true := by
  unfold cue_merged_line
  apply PyStr.hasSub_append_right
  apply PyStr.hasSub_append_right
  apply PyStr.hasSub_append_right
  decide

theorem arrow_no_newline : ∀ d ∈ arrowTag, d ≠ '\n' := by decide

theorem hasSub_arrow_newline : PyStr.hasSub arrowTag ['\n'] = false := by decide

theorem arrows_followed_cons_no_arrow (l : Line) (rest : List Line)
    (h : PyStr.hasSub arrowTag l = false) :
    arrows_followed (l :: rest) = arrows_followed rest := by
  simp [arrows_followed, h]

theorem arrows_followed_cue (t c : Line) (rest : List Line)
    (hvo : PyStr.hasSub vOpenTag c = true) (hvc : PyStr.hasSub vCloseTag c = true)
    (hnc : PyStr.hasSub arrowTag c = false)
    (hrest : arrows_followed rest = true) :
    arrows_followed (t :: c :: rest) = true := by
  show ((if PyStr.hasSub arrowTag t then _ else true) && arrows_followed (c :: rest)) = true
  rw [arrows_followed_cons_no_arrow c rest hnc, hrest]
  by_cases ht : PyStr.hasSub arrowTag t = true
  · simp [ht, hvo, hvc]
  · simp [ht]

end Allvtt

namespace Allvtt

theorem hasSub_line_newline (l : Line) :
    PyStr.hasSub arrowTag (l ++ ['\n']) = PyStr.hasSub arrowTag l :=
  PyStr.hasSub_append_single arrowTag '\n' arrow_no_newline l

theorem merge_vtt_lang_step (e z : Line) (es zs : List Line)
    (h : (PyStr.hasSub languageTag (PyStr.pyStrip e)
      || PyStr.hasSub languageTag (PyStr.pyStrip z)) = true) :
    merge_vtt (e :: es) (z :: zs) = merge_vtt es zs := by
  conv_lhs => unfold merge_vtt
  rw [if_pos h]

theorem merge_counts_lang_step (e z : Line) (es zs : List Line)
    (h : (PyStr.hasSub languageTag (PyStr.pyStrip e)
      || PyStr.hasSub languageTag (PyStr.pyStrip z)) = true) :
    merge_counts (e :: es) (z :: zs)
      = ((merge_counts es zs).1 + 1, (merge_counts es zs).2.1, (merge_counts es zs).2.2) := by
  conv_lhs => unfold merge_counts
  rw [if_pos h]

theorem lockstep_wf_lang_step (e z : Line) (es zs : List Line)
    (h : (PyStr.hasSub languageTag (PyStr.pyStrip e)
      || PyStr.hasSub languageTag (PyStr.pyStrip z)) = true) :
    lockstep_wf (e :: es) (z :: zs) = lockstep_wf es zs := by
  conv_lhs => unfold lockstep_wf
  rw [if_pos h]

theorem merge_vtt_cue_step (e z et zt : Line) (es2 zs2 : List Line)
    (h1 : ¬ (PyStr.hasSub languageTag (PyStr.pyStrip e)
      || PyStr.hasSub languageTag (PyStr.pyStrip z)) = true)
    (h2 : (PyStr.hasSub arrowTag (PyStr.pyStrip e)
      && PyStr.hasSub arrowTag (PyStr.pyStrip z)) = true) :
    merge_vtt (e :: et :: es2) (z :: zt :: zs2)
      = match merge_vtt es2 zs2 with
        | some rest => some ((PyStr.pyStrip e ++ ['\n']) :: cue_merged_line et zt :: rest)
        | none => none := by
  conv_lhs => unfold merge_vtt
  rw [if_neg h1, if_pos h2]

theorem merge_counts_cue_step (e z et zt : Line) (es2 zs2 : List Line)
    (h1 : ¬ (PyStr.hasSub languageTag (PyStr.pyStrip e)
      || PyStr.hasSub languageTag (PyStr.pyStrip z)) = true)
    (h2 : (PyStr.hasSub arrowTag (PyStr.pyStrip e)
      && PyStr.hasSub arrowTag (PyStr.pyStrip z)) = true) :
    merge_counts (e :: et :: es2) (z :: zt :: zs2)
      = ((merge_counts es2 zs2).1, (merge_counts es2 zs2).2.1 + 1, (merge_counts es2 zs2).2.2) := by
  conv_lhs => unfold merge_counts
  rw [if_neg h1, if_pos h2]

theorem lockstep_wf_cue_step (e z et zt : Line) (es2 zs2 : List Line)
    (h1 : ¬ (PyStr.hasSub languageTag (PyStr.pyStrip e)
      || PyStr.hasSub languageTag (PyStr.pyStrip z)) = true)
    (h2 : (PyStr.hasSub arrowTag (PyStr.pyStrip e)
      && PyStr.hasSub arrowTag (PyStr.pyStrip z)) = true) :
    lockstep_wf (e :: et :: es2) (z :: zt :: zs2)
      = (!PyStr.hasSub arrowTag (cue_merged_line et zt) && lockstep_wf es2 zs2) := by
  conv_lhs => unfold lockstep_wf
  rw [if_neg h1, if_pos h2]

theorem lockstep_wf_cue_nil_left (e z : Line) (zs : List Line)
    (h1 : ¬ (PyStr.hasSub languageTag (PyStr.pyStrip e)
      || PyStr.hasSub languageTag (PyStr.pyStrip z)) = true)
    (h2 : (PyStr.hasSub arrowTag (PyStr.pyStrip e)
      && PyStr.hasSub arrowTag (PyStr.pyStrip z)) = true) :
    lockstep_wf (e :: []) (z :: zs) = false := by
  conv_lhs => unfold lockstep_wf
  rw [if_neg h1, if_pos h2]

theorem lockstep_wf_cue_nil_right (e z et : Line) (es : List Line)
    (h1 : ¬ (PyStr.hasSub languageTag (PyStr.pyStrip e)
      || PyStr.hasSub languageTag (PyStr.pyStrip z)) = true)
    (h2 : (PyStr.hasSub arrowTag (PyStr.pyStrip e)
      && PyStr.hasSub arrowTag (PyStr.pyStrip z)) = true) :
    lockstep_wf (e :: et :: es) (z :: []) = false := by
  conv_lhs => unfold lockstep_wf
  rw [if_neg h1, if_pos h2]

theorem merge_vtt_blank_step (e z : Line) (es zs : List Line)
    (h1 : ¬ (PyStr.hasSub languageTag (PyStr.pyStrip e)
      || PyStr.hasSub languageTag (PyStr.pyStrip z)) = true)
    (h2 : ¬ (PyStr.hasSub arrowTag (PyStr.pyStrip e)
      && PyStr.hasSub arrowTag (PyStr.pyStrip z)) = true)
    (h3 : ((PyStr.pyStrip e).isEmpty && (PyStr.pyStrip z).isEmpty) = true) :
    merge_vtt (e :: es) (z :: zs)
      = match merge_vtt es zs with
        | some rest => some (['\n'] :: rest)
        | none => none := by
  conv_lhs => unfold merge_vtt
  rw [if_neg h1, if_neg h2, if_pos h3]

theorem merge_counts_blank_step (e z : Line) (es zs : List Line)
    (h1 : ¬ (PyStr.hasSub languageTag (PyStr.pyStrip e)
      || PyStr.hasSub languageTag (PyStr.pyStrip z)) = true)
    (h2 : ¬ (PyStr.hasSub arrowTag (PyStr.pyStrip e)
      && PyStr.hasSub arrowTag (PyStr.pyStrip z)) = true)
    (h3 : ((PyStr.pyStrip e).isEmpty && (PyStr.pyStrip z).isEmpty) = true) :
    merge_counts (e :: es) (z :: zs)
      = ((merge_counts es zs).1, (merge_counts es zs).2.1, (merge_counts es zs).2.2 + 1) := by
  conv_lhs => unfold merge_counts
  rw [if_neg h1, if_neg h2, if_pos h3]

theorem merge_vtt_other_step (e z : Line) (es zs : List Line)
    (h1 : ¬ (PyStr.hasSub languageTag (PyStr.pyStrip e)
      || PyStr.hasSub languageTag (PyStr.pyStrip z)) = true)
    (h2 : ¬ (PyStr.hasSub arrowTag (PyStr.pyStrip e)
      && PyStr.hasSub arrowTag (PyStr.pyStrip z)) = true)
    (h3 : ¬ ((PyStr.pyStrip e).isEmpty && (PyStr.pyStrip z).isEmpty) = true) :
    merge_vtt (e :: es) (z :: zs)
      = match merge_vtt es zs with
        | some rest => some ((PyStr.pyStrip e ++ ['\n']) :: (PyStr.pyStrip z ++ ['\n']) :: rest)
        | none => none := by
  conv_lhs => unfold merge_vtt
  rw [if_neg h1, if_neg h2, if_neg h3]

theorem merge_counts_other_step (e z : Line) (es zs : List Line)
    (h1 : ¬ (PyStr.hasSub languageTag (PyStr.pyStrip e)
      || PyStr.hasSub languageTag (PyStr.pyStrip z)) = true)
    (h2 : ¬ (PyStr.hasSub arrowTag (PyStr.pyStrip e)
      && PyStr.hasSub arrowTag (PyStr.pyStrip z)) = true)
    (h3 : ¬ ((PyStr.pyStrip e).isEmpty && (PyStr.pyStrip z).isEmpty) = true) :
    merge_counts (e :: es) (z :: zs) = merge_counts es zs := by
  conv_lhs => unfold merge_counts
  rw [if_neg h1, if_neg h2, if_neg h3]

theorem lockstep_wf_rest_step (e z : Line) (es zs : List Line)
    (h1 : ¬ (PyStr.hasSub languageTag (PyStr.pyStrip e)
      || PyStr.hasSub languageTag (PyStr.pyStrip z)) = true)
    (h2 : ¬ (PyStr.hasSub arrowTag (PyStr.pyStrip e)
      && PyStr.hasSub arrowTag (PyStr.pyStrip z)) = true)
    (h4 : ¬ (PyStr.hasSub arrowTag (PyStr.pyStrip e)
      || PyStr.hasSub arrowTag (PyStr.pyStrip z)) = true) :
    lockstep_wf (e :: es) (z :: zs) = lockstep_wf es zs := by
  conv_lhs => unfold lockstep_wf
  rw [if_neg h1, if_neg h2, if_neg h4]
  by_cases h3 : ((PyStr.pyStrip e).isEmpty && (PyStr.pyStrip z).isEmpty) = true
  · rw [if_pos h3]
  · rw [if_neg h3]

theorem merge_vtt_wf_main :
    ∀ (n : Nat) (ens zhs : List Line), ens.length ≤ n → lockstep_wf ens zhs = true →
    ∃ out, merge_vtt ens zhs = some out
      ∧ out.length + (merge_counts ens zhs).2.2
          + 2 * (merge_counts ens zhs).1 + 2 * (merge_counts ens zhs).2.1
        = ens.length + zhs.length
      ∧ arrows_followed out = true := by
  intro n
  induction n with
  | zero =>
    intro ens zhs hlen hwf
    have hens : ens = [] := List.length_eq_zero.mp (Nat.le_zero.mp hlen)
    subst hens
    cases zhs with
    | nil => exact ⟨[], rfl, rfl, rfl⟩
    | cons z zs => simp [lockstep_wf] at hwf
  | succ n ih =>
    intro ens zhs hlen hwf
    cases ens with
    | nil =>
      cases zhs with
      | nil => exact ⟨[], rfl, rfl, rfl⟩
      | cons z zs => simp [lockstep_wf] at hwf
    | cons e es =>
      cases zhs with
      | nil => simp [lockstep_wf] at hwf
      | cons z zs =>
        have hlen2 : es.length ≤ n := by
          simp only [List.length_cons] at hlen
          omega
        by_cases hlang : (PyStr.hasSub languageTag (PyStr.pyStrip e)
            || PyStr.hasSub languageTag (PyStr.pyStrip z)) = true
        · rw [lockstep_wf_lang_step e z es zs hlang] at hwf
          obtain ⟨out, hm, hc, ha⟩ := ih es zs hlen2 hwf
          refine ⟨out, ?_, ?_, ha⟩
          · rw [merge_vtt_lang_step e z es zs hlang]
            exact hm
          · rw [merge_counts_lang_step e z es zs hlang]
            simp only [List.length_cons]
            omega
        · by_cases hcue : (PyStr.hasSub arrowTag (PyStr.pyStrip e)
              && PyStr.hasSub arrowTag (PyStr.pyStrip z)) = true
          · cases es with
            | nil =>
              rw [lockstep_wf_cue_nil_left e z zs hlang hcue] at hwf
              exact absurd hwf (by simp)
            | cons et es2 =>
              cases zs with
              | nil =>
                rw [lockstep_wf_cue_nil_right e z et es2 hlang hcue] at hwf
                exact absurd hwf (by simp)
              | cons zt zs2 =>
                rw [lockstep_wf_cue_step e z et zt es2 zs2 hlang hcue,
                  Bool.and_eq_true, Bool.not_eq_true'] at hwf
                obtain ⟨hnc, hwf2⟩ := hwf
                have hlen3 : es2.length ≤ n := by
                  simp only [List.length_cons] at hlen
                  omega
                obtain ⟨out, hm, hc, ha⟩ := ih es2 zs2 hlen3 hwf2
                refine ⟨(PyStr.pyStrip e ++ ['\n']) :: cue_merged_line et zt :: out, ?_, ?_, ?_⟩
                · rw [merge_vtt_cue_step e z et zt es2 zs2 hlang hcue, hm]
                · rw [merge_counts_cue_step e z et zt es2 zs2 hlang hcue]
                  simp only [List.length_cons]
                  omega
                · exact arrows_followed_cue _ _ out (vOpen_in_cue et zt)
                    (vClose_in_cue et zt) hnc ha
          · by_cases hxarrow : (PyStr.hasSub arrowTag (PyStr.pyStrip e)
                || PyStr.hasSub arrowTag (PyStr.pyStrip z)) = true
            · have : lockstep_wf (e :: es) (z :: zs) = false := by
                conv_lhs => unfold lockstep_wf
                rw [if_neg hlang, if_neg hcue, if_pos hxarrow]
              rw [this] at hwf
              exact absurd hwf (by simp)
            · rw [lockstep_wf_rest_step e z es zs hlang hcue hxarrow] at hwf
              obtain ⟨out, hm, hc, ha⟩ := ih es zs hlen2 hwf
              rw [Bool.or_eq_true, not_or, Bool.not_eq_true, Bool.not_eq_true] at hxarrow
              obtain ⟨hne, hnz⟩ := hxarrow
              by_cases hblank : ((PyStr.pyStrip e).isEmpty && (PyStr.pyStrip z).isEmpty) = true
              · refine ⟨['\n'] :: out, ?_, ?_, ?_⟩
                · rw [merge_vtt_blank_step e z es zs hlang hcue hblank, hm]
                · rw [merge_counts_blank_step e z es zs hlang hcue hblank]
                  simp only [List.length_cons]
                  omega
                · rw [arrows_followed_cons_no_arrow _ _ hasSub_arrow_newline]
                  exact ha
              · refine ⟨(PyStr.pyStrip e ++ ['\n']) :: (PyStr.pyStrip z ++ ['\n']) :: out, ?_, ?_, ?_⟩
                · rw [merge_vtt_other_step e z es zs hlang hcue hblank, hm]
                · rw [merge_counts_other_step e z es zs hlang hcue hblank]
                  simp only [List.length_cons]
                  omega
                · rw [arrows_followed_cons_no_arrow _ _ (by rw [hasSub_line_newline]; exact hne),
                    arrows_followed_cons_no_arrow _ _ (by rw [hasSub_line_newline]; exact hnz)]
                  exact ha

end Allvtt


/-- Counterexample for C3: two 2-line inputs, each a cue timing line
followed by a cue text line, with identical line counts and identically
positioned "-->" lines and no blank or Language: pairs.  The claimed
formula predicts 2 + 2 - 0 - 0 = 4 output lines, but the merge emits the
timing line once and collapses the two text lines into one combined line:
2 output lines. -/
theorem subtitle_merge_counterexample :
    Allvtt.merge_vtt [("a --> b").toList, "hello".toList]
        [("a --> b").toList, "nihao".toList]
      = some [("a --> b\n").toList, ("hello <v> nihao</v>\n").toList]
    ∧ Allvtt.merge_counts [("a --> b").toList, "hello".toList]
        [("a --> b").toList, "nihao".toList] = (0, 1, 0)
    ∧ ¬ ((2 : Nat) = 2 + 2 - (0 + 0)) := by
  refine ⟨by decide, by decide, by decide⟩

/-- Claim C3 amended: for lock-step well-formed inputs (equal line counts,
identically positioned "-->" lines, every cue pair followed by a text
pair whose combined line contains no "-->"), the merge succeeds and the
output line count satisfies
out + blank_pairs + 2·language_pairs + 2·cue_pairs = total input lines
(i.e. a blank pair collapses 2 lines to 1, while a Language: pair drops
2 lines and a cue pair turns 4 lines into 2 — not merely "minus the number
of collapsed pairs" as claimed), and every output line containing "-->"
is immediately followed by a combined line containing the literal markers
"<v>" and "</v>". -/
theorem subtitle_merge_contract (ens zhs : List Allvtt.Line)
    (hwf : Allvtt.lockstep_wf ens zhs = true) :
    ∃ out, Allvtt.merge_vtt ens zhs = some out
      ∧ out.length + (Allvtt.merge_counts ens zhs).2.2
          + 2 * (Allvtt.merge_counts ens zhs).1 + 2 * (Allvtt.merge_counts ens zhs).2.1
        = ens.length + zhs.length
      ∧ Allvtt.arrows_followed out = true :=
  Allvtt.merge_vtt_wf_main ens.length ens zhs le_rfl hwf

/-- Witness for the amended C3 at the counterexample's concrete input
(which is lock-step well-formed). -/
theorem subtitle_merge_contract_witness :
    ∃ out, Allvtt.merge_vtt [("a --> b").toList, "hello".toList]
          [("a --> b").toList, "nihao".toList] = some out
      ∧ out.length
          + (Allvtt.merge_counts [("a --> b").toList, "hello".toList]
              [("a --> b").toList, "nihao".toList]).2.2
          + 2 * (Allvtt.merge_counts [("a --> b").toList, "hello".toList]
              [("a --> b").toList, "nihao".toList]).1
          + 2 * (Allvtt.merge_counts [("a --> b").toList, "hello".toList]
              [("a --> b").toList, "nihao".toList]).2.1
        = ([("a --> b").toList, "hello".toList] : List Allvtt.Line).length
          + ([("a --> b").toList, "nihao".toList] : List Allvtt.Line).length
      ∧ Allvtt.arrows_followed out = true :=
  subtitle_merge_contract [("a --> b").toList, "hello".toList]
    [("a --> b").toList, "nihao".toList] (by decide)
